import Mathlib

/-!
Verification development for the Schema_Refinery classification-and-consolidation
engine (`SchemaRefinery/utils/core_functions.py`).

The Python source is shallowly embedded: dictionaries become ordered association
lists, Python numbers become `ℚ` (frequencies, scores, percentages) or `Nat`
(counts, cluster keys), Python `round` becomes exact rational rounding half to
even, fallible dictionary indexing becomes `Option`.  Helper utilities that the
source imports from modules not present in the codebase snapshot
(`iterable_functions.identify_string_in_dict_get_key`,
`clustering_functions.cluster_by_ids`) are modelled from the specification and
are marked as such in their doc comments.
-/

set_option maxRecDepth 8000

/-- Values stored in Python sets and dicts in `extract_results` are a mix of
raw identifier strings and integer cluster keys; cross-type equality is always
false in Python, which the sum type mirrors. -/
inductive PyV where
  | s (v : String)
  | n (v : Nat)
deriving DecidableEq, Repr

/-- First value bound to a key in an ordered association list (Python
`d.get(k)` / `d[k]`). -/
def alist_get {κ β : Type} [DecidableEq κ] (l : List (κ × β)) (k : κ) : Option β :=
  (l.find? (fun p => decide (p.1 = k))).map (fun p => p.2)

/-- Python `d.setdefault(k, default)` followed by an in-place update of the
value: existing keys keep their position, a missing key is appended with the
update applied to the default. -/
def alist_update {κ β : Type} [DecidableEq κ] (l : List (κ × β)) (k : κ) (d : β)
    (f : β → β) : List (κ × β) :=
  if (alist_get l k).isSome then
    l.map (fun p => if p.1 = k then (p.1, f p.2) else p)
  else
    l ++ [(k, f d)]

/-- Python `d[k] = v`: overwrite in place, or append when the key is new. -/
def alist_set {κ β : Type} [DecidableEq κ] (l : List (κ × β)) (k : κ) (v : β) :
    List (κ × β) :=
  if (alist_get l k).isSome then
    l.map (fun p => if p.1 = k then (p.1, v) else p)
  else
    l ++ [(k, v)]

/-- Whether the first character list starts with the second one. -/
def starts_with_chars : List Char → List Char → Bool
  | [], _ => true
  | _ :: _, [] => false
  | a :: as, b :: bs => decide (b = a) && starts_with_chars as bs

/-- Whether the first character list occurs contiguously in the second
(Python `needle in hay` on strings). -/
def contains_chars (needle : List Char) : List Char → Bool
  | [] => starts_with_chars needle []
  | c :: cs => starts_with_chars needle (c :: cs) || contains_chars needle cs

/-- Python substring test `needle in hay`. -/
def str_has_sub (hay needle : String) : Bool :=
  contains_chars needle.data hay.data

/-- Characters of a string up to (excluding) the first underscore: Python
`s.split('_')[0]`. -/
def before_underscore (s : String) : String :=
  String.mk (s.data.takeWhile (fun c => decide (c ≠ '_')))

/-- Position of a string in a list (Python `list.index`, with the list length
returned for a missing element). -/
def index_of_str (s : String) : List String → Nat
  | [] => 0
  | x :: xs => if x = s then 0 else index_of_str s xs + 1

/-- Python `enumerate(xs, 1)` materialised as key-value pairs. -/
def enumerate1 {α : Type} (l : List α) : List (Nat × α) :=
  l.enum.map (fun p => (p.1 + 1, p.2))

/-- Stable insertion of an element into a list sorted by a rank function: the
incoming element is placed before the first element of greater or equal rank,
so that among equal ranks the original order is preserved once the outer sort
processes elements from the right. -/
def insert_by_rank {α : Type} (rank : α → Nat) (x : α) : List α → List α
  | [] => [x]
  | y :: ys => if rank x ≤ rank y then x :: y :: ys else y :: insert_by_rank rank x ys

/-- Stable sort by a rank function (Python `sorted(xs, key=rank)`). -/
def sort_by_rank {α : Type} (rank : α → Nat) : List α → List α
  | [] => []
  | x :: xs => insert_by_rank rank x (sort_by_rank rank xs)

/-- Python 3 `round(x)` on an exact rational: round half to even. -/
def pyRound (x : ℚ) : ℤ :=
  let f := ⌊x⌋
  let r := x - f
  if r < 1/2 then f
  else if 1/2 < r then f + 1
  else if f % 2 = 0 then f else f + 1

/-- Python 3 `round(x, 4)` on an exact rational. -/
def round4 (x : ℚ) : ℚ :=
  (pyRound (x * 10000) : ℚ) / 10000

/-- Value of a k-mer similarity or coverage field: either a number or the
string sentinel `'-'` the source stores when no table was provided. -/
inductive KmerMetric where
  | val (q : ℚ)
  | dash
deriving DecidableEq, Repr

/-- Embedding of `get_kmer_values` (nested in `add_items_to_results`,
`core_functions.py`).  The k-mer table maps a query id to the subject table of
`(similarity, coverage)` pairs.  A falsy (empty) table yields the `'-'`
sentinels; otherwise `reps_kmers_sim[query]` is a plain indexing, so a missing
query key is a `KeyError`, embedded as `none`; a missing subject yields
`(0, 0)`. -/
def get_kmer_values (reps_kmers_sim : List (String × List (String × ℚ × ℚ)))
    (query subject : String) : Option (KmerMetric × KmerMetric) :=
  if reps_kmers_sim.isEmpty then
    some (KmerMetric.dash, KmerMetric.dash)
  else
    match alist_get reps_kmers_sim query with
    | none => none
    | some row =>
      match alist_get row subject with
      | some sc => some (KmerMetric.val sc.1, KmerMetric.val sc.2)
      | none => some (KmerMetric.val 0, KmerMetric.val 0)

/-- Embedding of `get_bsr_value` (nested in `add_items_to_results`,
`core_functions.py`): `bsr_values[query].get(subject, 0)`, values above `1.0`
collapsed with `round`, and the result rounded to 4 decimal places.  The outer
indexing `bsr_values[query]` can raise, embedded as `none`. -/
def get_bsr_value (bsr_values : List (String × List (String × ℚ)))
    (query subject : String) : Option ℚ :=
  match alist_get bsr_values query with
  | none => none
  | some row =>
    let bsr := (alist_get row subject).getD 0
    let bsr := if 1 < bsr then ((pyRound bsr : ℤ) : ℚ) else bsr
    some (round4 bsr)

/-- Raw alignment coordinates and lengths of one BLAST entry, the fields read
by `calculate_local_palign`. -/
structure RawAlignment where
  query_start : ℤ
  query_end : ℤ
  query_length : ℤ
  subject_start : ℤ
  subject_end : ℤ
  subject_length : ℤ
deriving DecidableEq, Repr

/-- Embedding of `calculate_local_palign` (nested in `add_items_to_results`):
the minimum over query and subject of (aligned span / full length), rounded to
4 decimal places.  A negative value marks an inverted alignment. -/
def calculate_local_palign (r : RawAlignment) : ℚ :=
  round4 (min ((r.query_end - r.query_start + 1 : ℤ) / (r.query_length : ℚ))
             ((r.subject_end - r.subject_start + 1 : ℤ) / (r.subject_length : ℚ)))

/-- Per-pair metrics written by `update_results` into every entry of a
`(query, subject)` pair.  In the source they are computed once per pair from
the k-mer table, the BSR table, the frequency table and the merged coordinate
intervals (the interval merge lives in the external `alignments_functions`
module); the embedding passes them to `add_items_to_results` as a function of
the pair. -/
structure PairMetrics where
  bsr : ℚ
  kmers_sim : KmerMetric
  kmers_cov : KmerMetric
  frequency_in_genomes_query_cds : ℚ
  frequency_in_genomes_subject_cds : ℚ
  global_palign_all_min : ℚ
  global_palign_all_max : ℚ
  global_palign_pident_min : ℚ
  global_palign_pident_max : ℚ
deriving DecidableEq, Repr

/-- A surviving BLAST entry after enrichment: the raw entry, the per-pair
metrics, and its own `local_palign_min`. -/
structure EnrichedAlignment where
  raw : RawAlignment
  metrics : PairMetrics
  local_palign_min : ℚ
deriving DecidableEq, Repr

/-- Embedding of the main loop of `add_items_to_results`
(`core_functions.py`, lines 520-541): every entry of every `(query, subject)`
pair is enriched when its `calculate_local_palign` is non-negative and removed
otherwise (`remove_results`), after which `clean_up_results` prunes subject
containers left empty and query containers left empty. -/
def add_items_to_results (results : List (String × List (String × List RawAlignment)))
    (met : String → String → PairMetrics) :
    List (String × List (String × List EnrichedAlignment)) :=
  (results.map (fun qp =>
    (qp.1, (qp.2.map (fun sp =>
      (sp.1, sp.2.filterMap (fun r =>
        let lp := calculate_local_palign r
        if 0 ≤ lp then some ⟨r, met qp.1 sp.1, lp⟩ else none)))).filter
      (fun sp => !sp.2.isEmpty)))).filter (fun qp => !qp.2.isEmpty)

/-- Fields of an enriched BLAST entry read by the classification decision tree
of `separate_blastn_results_into_classes` (`core_functions.py`). -/
structure ClassifyEntry where
  frequency_in_genomes_query_cds : ℚ
  frequency_in_genomes_subject_cds : ℚ
  global_palign_all_min : ℚ
  global_palign_pident_max : ℚ
  bsr : ℚ
  pident : ℚ
deriving DecidableEq, Repr

/-- Frequency ratio computed at the top of the classification loop
(`core_functions.py`, lines 605-613): when one frequency is 0 the ratio is 0.1
if the other exceeds 10 and 1 otherwise, else the smaller of the two frequency
quotients. -/
def freq_ratio_val (e : ClassifyEntry) : ℚ :=
  if e.frequency_in_genomes_query_cds = 0 ∨ e.frequency_in_genomes_subject_cds = 0 then
    if 10 < e.frequency_in_genomes_query_cds ∨ 10 < e.frequency_in_genomes_subject_cds
    then 1/10 else 1
  else
    min (e.frequency_in_genomes_query_cds / e.frequency_in_genomes_subject_cds)
        (e.frequency_in_genomes_subject_cds / e.frequency_in_genomes_query_cds)

/-- The class taxonomy in priority order, as returned by
`separate_blastn_results_into_classes`. -/
def classes_outcome : List String :=
  ["1a", "1b", "2a", "3a", "2b", "1c", "3b", "4a", "4b", "4c", "5"]

/-- The per-entry decision tree of `separate_blastn_results_into_classes`
(`core_functions.py`, lines 615-643).  `pident_threshold` is `constants[1]`
and `bsr_threshold` is `constants[7]`; the palign thresholds 0.8 and 0.4 are
hardcoded in the source. -/
def classify_blast_entry (e : ClassifyEntry) (pident_threshold bsr_threshold : ℚ) :
    String :=
  if 4/5 ≤ e.global_palign_all_min then
    if bsr_threshold ≤ e.bsr then "1a"
    else if freq_ratio_val e ≤ 1/10 then "1b"
    else "1c"
  else if 2/5 ≤ e.global_palign_all_min ∧ e.global_palign_all_min < 4/5 then
    if pident_threshold ≤ e.pident then
      if 4/5 ≤ e.global_palign_pident_max then
        if freq_ratio_val e ≤ 1/10 then "2a" else "2b"
      else
        if freq_ratio_val e ≤ 1/10 then "3a" else "3b"
    else
      if 4/5 ≤ e.global_palign_pident_max then
        if freq_ratio_val e ≤ 1/10 then "4a" else "4b"
      else "4c"
  else "5"

/-- Embedding of `separate_blastn_results_into_classes`: every entry of the
nested results is labelled with the class the decision tree assigns
(`add_class_to_dict`). -/
def separate_blastn_results_into_classes
    (results : List (String × List (String × List ClassifyEntry)))
    (pident_threshold bsr_threshold : ℚ) :
    List (String × List (String × List (ClassifyEntry × String))) :=
  results.map (fun qp =>
    (qp.1, qp.2.map (fun sp =>
      (sp.1, sp.2.map (fun e => (e, classify_blast_entry e pident_threshold bsr_threshold))))))

/-- Modelled from the spec: `identify_string_in_dict_get_key` from the
repository's iterable utilities (module not present in the snapshot) returns
the key of the first dictionary entry whose value list contains the given
identifier, and `None` when no entry does. -/
def identify_string_in_dict_get_key {κ : Type} [DecidableEq κ] (id_ : String)
    (d : List (κ × List String)) : Option κ :=
  (d.find? (fun kv => kv.2.contains id_)).map (fun kv => kv.1)

/-- Fields of a classified BLAST entry read by `process_classes`: the class of
the highest-scoring match and the two genome frequencies. -/
structure ClassedEntry where
  class_ : String
  frequency_in_genomes_query_cds : ℚ
  frequency_in_genomes_subject_cds : ℚ
deriving DecidableEq, Repr

/-- One `(query, subject)` item of the sorted BLAST results iterated by
`process_classes`; `firstEntry` is the entry the source reads both as
`matches[1]` and as `matches[list(matches.keys())[0]]`. -/
structure PairMatches where
  query : String
  subject : String
  firstEntry : ClassedEntry
deriving DecidableEq, Repr

/-- The tuple stored per `"query|subject"` key in `processed_results` by
`process_classes`: class, raw relationship ids, the id selected for dropping
(empty list when none), the (possibly loci-replaced) pair ids, and the output
strings where a drop-marked side carries a `*` suffix. -/
structure ProcResult where
  class_ : String
  idsRel : List String
  dropT : List String
  pairIds : String × String
  strings : List String
deriving DecidableEq, Repr

/-- Drop-marking step of `process_classes` (`core_functions.py`, lines
832-845): for classes `1b`, `2a`, `3a` the subject is dropped when the query
frequency is greater or equal and the query is dropped otherwise; the dropped
side's string gets a `*` suffix and the dropped id is appended to the
`drop_mark` list (returned here as the second component). -/
def mark_dropped (class_ : String) (e : ClassedEntry) (new_query new_subject : String)
    (strings : List String) : List String × List String :=
  if ¬ (class_ = "4c" ∨ class_ = "5") then
    if class_ = "1b" ∨ class_ = "2a" ∨ class_ = "3a" then
      let is_frequency_greater :=
        e.frequency_in_genomes_subject_cds ≤ e.frequency_in_genomes_query_cds
      let dropped := if is_frequency_greater then new_subject else new_query
      if new_query = dropped then
        (strings.set 0 (strings.getD 0 "" ++ "*"), [new_query])
      else
        (strings.set 1 (strings.getD 1 "" ++ "*"), [new_subject])
    else (strings, [])
  else (strings, [])

/-- Accumulated outputs of `process_classes` modelled here: the
`processed_results` mapping, the per-pair class counters, and the `drop_mark`
list.  (The inverse-orientation counters and rep/allele id sets the source
builds alongside are not consumed by any verified property and are omitted.) -/
structure ProcessOut where
  processed_results : List (String × ProcResult)
  count_results_by_class : List (String × List (String × Nat))
  drop_mark : List String
deriving DecidableEq, Repr

/-- Body of the `process_classes` loop for one `(query, subject)` item
(`core_functions.py`, lines 752-851).  With `all_alleles` present the ids are
replaced by their loci keys and a pair already processed with an equal or
better class is not re-run (`run_next_step`); the class counters are updated
in every iteration. -/
def process_classes_step (co : List String)
    (all_alleles : Option (List (String × List String)))
    (st : ProcessOut) (p : PairMatches) : ProcessOut :=
  let class_ := p.firstEntry.class_
  let new_query := match all_alleles with
    | some d => (identify_string_in_dict_get_key p.query d).getD p.query
    | none => p.query
  let new_subject := match all_alleles with
    | some d => (identify_string_in_dict_get_key p.subject d).getD p.subject
    | none => p.subject
  let key := new_query ++ "|" ++ new_subject
  let run_next_step := match all_alleles with
    | none => true
    | some _ =>
      match alist_get st.processed_results key with
      | none => true
      | some prev => decide (index_of_str class_ co < index_of_str prev.class_ co)
  let counts := alist_update st.count_results_by_class key []
    (fun inner => alist_update inner class_ 0 (fun c => c + 1))
  if run_next_step then
    let strings0 := [new_query, new_subject, class_]
    let query_or_subject :=
      if class_ = "1b" ∨ class_ = "2a" ∨ class_ = "3a" then
        [if p.firstEntry.frequency_in_genomes_subject_cds ≤
            p.firstEntry.frequency_in_genomes_query_cds
         then new_subject else new_query]
      else []
    let ms := mark_dropped class_ p.firstEntry new_query new_subject strings0
    let pr : ProcResult :=
      { class_ := class_
        idsRel := [p.query, p.subject]
        dropT := query_or_subject
        pairIds := (new_query, new_subject)
        strings := ms.1 }
    { processed_results := alist_set st.processed_results key pr
      count_results_by_class := counts
      drop_mark := st.drop_mark ++ ms.2 }
  else
    { st with count_results_by_class := counts }

/-- Embedding of `process_classes` (`core_functions.py`): a left fold of the
loop body over the sorted `(query, subject)` items. -/
def process_classes (results : List PairMatches) (co : List String)
    (all_alleles : Option (List (String × List String))) : ProcessOut :=
  results.foldl (process_classes_step co all_alleles) ⟨[], [], []⟩

/-- Modelled from the spec: `cluster_by_ids` from the repository's clustering
utilities (module not present in the snapshot), described as union-find
clustering over `(query, subject)` id pairs: every pair merges the clusters
touching either side, or starts a new cluster. -/
def merge_pair_into (clusters : List (List String)) (q s : String) :
    List (List String) :=
  let touching := clusters.filter (fun c => c.contains q || c.contains s)
  let rest := clusters.filter (fun c => !(c.contains q || c.contains s))
  let merged := touching.foldl (fun acc c => acc ++ c) []
  let merged := if merged.contains q then merged else merged ++ [q]
  let merged := if merged.contains s then merged else merged ++ [s]
  rest ++ [merged]

/-- Modelled from the spec: union-find clustering over id pairs (see
`merge_pair_into`). -/
def cluster_by_ids (pairs : List (String × String)) : List (List String) :=
  pairs.foldl (fun cl p => merge_pair_into cl p.1 p.2) []

/-- Embedding of `cluster_data` (nested in `extract_results`): the pair ids of
every processed result whose class is not `4c` or `5`, clustered and numbered
from 1. -/
def cluster_data (processed_results : List (String × ProcResult)) :
    List (Nat × List String) :=
  enumerate1 (cluster_by_ids
    ((processed_results.filter
      (fun kv => ¬ (kv.2.class_ = "4c" ∨ kv.2.class_ = "5"))).map
      (fun kv => kv.2.pairIds)))

/-- Selection condition of `choice_data` (nested in `extract_results`,
`core_functions.py`, lines 905-924): a processed result is taken when its
class is not `1a`, `4c` or `5`, or when one of its sides lies in a
relationship cluster and one of its strings carries the `*` drop-mark. -/
def choice_selected (to_cluster_list : List (Nat × List String)) (v : ProcResult) :
    Bool :=
  let additional := str_has_sub (v.strings.getD 0 "") "*" ||
    str_has_sub (v.strings.getD 1 "") "*"
  decide (¬ (v.class_ = "1a" ∨ v.class_ = "4c" ∨ v.class_ = "5")) ||
    ((identify_string_in_dict_get_key v.pairIds.1 to_cluster_list).isSome && additional ||
     (identify_string_in_dict_get_key v.pairIds.2 to_cluster_list).isSome && additional)

/-- Embedding of `choice_data` (nested in `extract_results`): the pair ids of
the selected processed results, clustered and numbered from 1. -/
def choice_data (processed_results : List (String × ProcResult))
    (to_cluster_list : List (Nat × List String)) : List (Nat × List String) :=
  enumerate1 (cluster_by_ids
    ((processed_results.filter (fun kv => choice_selected to_cluster_list kv.2)).map
      (fun kv => kv.2.pairIds)))

/-- Embedding of `process_id` (nested in `extract_results`): the id, its
cluster key in `to_cluster_list`, and its join key in `cds_to_keep['1a']`. -/
def process_id (id_ : String) (to_cluster_list : List (Nat × List String))
    (cds_to_keep_1a : List (Nat × List String)) : String × Option Nat × Option Nat :=
  (id_, identify_string_in_dict_get_key id_ to_cluster_list,
    identify_string_in_dict_get_key id_ cds_to_keep_1a)

/-- Category key built by `add_to_recommendations`: `f'{category}_{joined_id}'`
for joined or choice ids, the bare category otherwise. -/
def rec_key (category : String) (joined_id : Option Nat) : String :=
  match joined_id with
  | some j => category ++ "_" ++ toString j
  | none => category

/-- Embedding of `add_to_recommendations` (nested in `extract_results`): add
an identifier to the set stored under the category key of a group. -/
def add_to_recommendations (recs : List (Option Nat × List (String × List PyV)))
    (key : Option Nat) (category : String) (id_to_write : PyV)
    (joined_id : Option Nat) : List (Option Nat × List (String × List PyV)) :=
  alist_update recs key []
    (fun inner => alist_update inner (rec_key category joined_id) []
      (fun members => if id_to_write ∈ members then members else members ++ [id_to_write]))

/-- Embedding of `check_in_recommendations` (nested in `extract_results`):
whether `(joined_id or id_)` occurs in a value of the group whose category key
contains one of the given category substrings. -/
def check_in_recommendations (idv : PyV)
    (recs : List (Option Nat × List (String × List PyV))) (key : Option Nat)
    (categories : List String) : Bool :=
  categories.any (fun cat =>
    ((alist_get recs key).getD []).any
      (fun kv => str_has_sub kv.1 cat && decide (idv ∈ kv.2)))

/-- Entry of `dropped_match`: `[dropped id, other id, other id]`. -/
structure DropRec where
  a : PyV
  b : PyV
  c : PyV
deriving DecidableEq, Repr

/-- Entry of `matched_with_dropped`:
`[query_to_write, subject_to_write, dropped side, choice_query_id]`. -/
structure MatchRec where
  a : PyV
  b : PyV
  c : PyV
  cid : Option Nat
deriving DecidableEq, Repr

/-- Mutable state threaded through the main loop of `extract_results`.  The
`handled` field is a verification-only trace recording, in order, the pairs
that passed the processed-pairs guard. -/
structure ExtractState where
  related_clusters : List (Option Nat × List (List String))
  recommendations : List (Option Nat × List (String × List PyV))
  dropped_match : List (Option Nat × List DropRec)
  matched_with_dropped : List (Option Nat × List MatchRec)
  processed_cases : List (List String)
  handled : List (String × String)
deriving DecidableEq, Repr

/-- Row appended to `related_clusters` for one processed result
(`core_functions.py`, lines 1018-1021): the result strings, the class count
over the pair total, and the two genome frequencies. -/
def build_related_row (count_results_by_class : List (String × List (String × Nat)))
    (frequency_in_genomes : List (String × Nat)) (results : ProcResult) :
    List String :=
  let pairKey := results.pairIds.1 ++ "|" ++ results.pairIds.2
  let cmap := (alist_get count_results_by_class pairKey).getD []
  let cnt := (alist_get cmap results.class_).getD 0
  let total := cmap.foldl (fun acc kv => acc + kv.2) 0
  results.strings ++
    [toString cnt ++ "/" ++ toString total,
     toString ((alist_get frequency_in_genomes results.pairIds.1).getD 0),
     toString ((alist_get frequency_in_genomes results.pairIds.2).getD 0)]

/-- Branch body of the `extract_results` loop after the processed-pairs guard
(`core_functions.py`, lines 1049-1082): the possibly reversed result is
dispatched on its class, updating the recommendations, `dropped_match` and
`matched_with_dropped`. -/
def extract_step_core (processed_results : List (String × ProcResult))
    (cds_to_keep_1a : List (Nat × List String)) (drop_set : List PyV)
    (choice : List (Nat × List String)) (co : List String)
    (recs : List (Option Nat × List (String × List PyV)))
    (dm : List (Option Nat × List DropRec))
    (mwd : List (Option Nat × List MatchRec))
    (key : Option Nat) (results0 : ProcResult) :
    List (Option Nat × List (String × List PyV)) ×
      List (Option Nat × List DropRec) × List (Option Nat × List MatchRec) :=
  let query_id := results0.pairIds.1
  let subject_id := results0.pairIds.2
  let joined_query_id := identify_string_in_dict_get_key query_id cds_to_keep_1a
  let joined_subject_id := identify_string_in_dict_get_key subject_id cds_to_keep_1a
  let if_same_joined : Bool := match joined_query_id, joined_subject_id with
    | some a, some b => decide (a = b)
    | _, _ => false
  let qv : PyV := match joined_query_id with
    | some j => PyV.n j
    | none => PyV.s query_id
  let sv : PyV := match joined_subject_id with
    | some j => PyV.n j
    | none => PyV.s subject_id
  let if_joined_query := check_in_recommendations qv recs key ["Joined"]
  let if_joined_subject := check_in_recommendations sv recs key ["Joined"]
  let if_query_in_choice := check_in_recommendations qv recs key ["Choice"]
  let if_subject_in_choice := check_in_recommendations sv recs key ["Choice"]
  let if_query_dropped : Bool := decide (qv ∈ drop_set)
  let if_subject_dropped : Bool := decide (sv ∈ drop_set)
  let choice_query_id := identify_string_in_dict_get_key query_id choice
  let choice_subject_id := identify_string_in_dict_get_key subject_id choice
  let query_to_write := qv
  let subject_to_write := sv
  let joined_query_to_write := PyV.s query_id
  let joined_subject_to_write := PyV.s subject_id
  let reverse_id := subject_id ++ "|" ++ query_id
  let results := match alist_get processed_results reverse_id with
    | some rev =>
      if index_of_str rev.class_ co < index_of_str results0.class_ co then rev
      else results0
    | none => results0
  if results.class_ = "1a" then
    let recs := if joined_query_id.isSome then
      add_to_recommendations recs key "Joined" joined_query_to_write joined_query_id
      else recs
    let recs := if joined_subject_id.isSome then
      add_to_recommendations recs key "Joined" joined_subject_to_write joined_subject_id
      else recs
    (recs, dm, mwd)
  else if results.class_ = "1c" ∨ results.class_ = "2b" ∨ results.class_ = "3b" ∨
      results.class_ = "4b" then
    if !if_query_dropped && !if_subject_dropped && !if_same_joined then
      let recs := add_to_recommendations recs key "Choice" query_to_write choice_query_id
      let recs := add_to_recommendations recs key "Choice" subject_to_write choice_subject_id
      (recs, dm, mwd)
    else if if_query_dropped then
      let recs := add_to_recommendations recs key "Choice" subject_to_write choice_subject_id
      let mwd := alist_update mwd key []
        (fun l => l ++ [⟨query_to_write, subject_to_write, query_to_write, choice_query_id⟩])
      (recs, dm, mwd)
    else if if_subject_dropped then
      let recs := add_to_recommendations recs key "Choice" query_to_write choice_query_id
      let mwd := alist_update mwd key []
        (fun l => l ++ [⟨query_to_write, subject_to_write, subject_to_write, choice_query_id⟩])
      (recs, dm, mwd)
    else (recs, dm, mwd)
  else if results.class_ = "1b" ∨ results.class_ = "2a" ∨ results.class_ = "3a" ∨
      results.class_ = "4a" then
    let recs :=
      if (joined_query_id.isSome && str_has_sub (results.strings.getD 0 "") "*") ||
         (joined_subject_id.isSome && str_has_sub (results.strings.getD 1 "") "*") then
        let recs := add_to_recommendations recs key "Choice" query_to_write choice_query_id
        add_to_recommendations recs key "Choice" subject_to_write choice_subject_id
      else recs
    if PyV.s query_id ∈ drop_set then
      if !if_joined_query && !if_query_in_choice then
        let recs := add_to_recommendations recs key "Drop" query_to_write none
        let dm := alist_update dm key []
          (fun l => l ++ [⟨query_to_write, subject_to_write, subject_to_write⟩])
        (recs, dm, mwd)
      else (recs, dm, mwd)
    else if PyV.s subject_id ∈ drop_set then
      if !if_joined_subject && !if_subject_in_choice then
        let recs := add_to_recommendations recs key "Drop" subject_to_write none
        let dm := alist_update dm key []
          (fun l => l ++ [⟨subject_to_write, query_to_write, query_to_write⟩])
        (recs, dm, mwd)
      else (recs, dm, mwd)
    else (recs, dm, mwd)
  else (recs, dm, mwd)

/-- One iteration of the main loop of `extract_results` (`core_functions.py`,
lines 1009-1082): results of class `4c`, `5` or the retained sentinel are
skipped; otherwise the related-clusters row and the group's recommendation
dictionary are created, and the pair, unless its orientation is already in
`processed_cases`, is handled by `extract_step_core` while its inverse is
recorded in `processed_cases`. -/
def extract_step (processed_results : List (String × ProcResult))
    (count_results_by_class : List (String × List (String × Nat)))
    (frequency_in_genomes : List (String × Nat))
    (cds_to_keep_1a : List (Nat × List String)) (drop_set : List PyV)
    (to_cluster_list choice : List (Nat × List String)) (co : List String)
    (st : ExtractState) (results0 : ProcResult) : ExtractState :=
  if results0.class_ = "4c" ∨ results0.class_ = "5" ∨
      results0.class_ = "Retained_not_matched_by_blastn" then st
  else
    let query_present := identify_string_in_dict_get_key results0.pairIds.1 to_cluster_list
    let subject_present := identify_string_in_dict_get_key results0.pairIds.2 to_cluster_list
    let key := if query_present.isSome then query_present else subject_present
    let row := build_related_row count_results_by_class frequency_in_genomes results0
    let st1 : ExtractState :=
      { st with
        related_clusters := alist_update st.related_clusters key [] (fun l => l ++ [row])
        recommendations := alist_update st.recommendations key [] (fun m => m) }
    if [results0.pairIds.1, results0.pairIds.2] ∈ st.processed_cases then st1
    else
      let out := extract_step_core processed_results cds_to_keep_1a drop_set choice co
        st1.recommendations st1.dropped_match st1.matched_with_dropped key results0
      { related_clusters := st1.related_clusters
        recommendations := out.1
        dropped_match := out.2.1
        matched_with_dropped := out.2.2
        processed_cases := st.processed_cases ++ [[results0.pairIds.2, results0.pairIds.1]]
        handled := st.handled ++ [(results0.pairIds.1, results0.pairIds.2)] }

/-- Empty state at the start of the `extract_results` main loop. -/
def extract_init : ExtractState :=
  ⟨[], [], [], [], [], []⟩

/-- State after the main loop of `extract_results`, before the cascading
second pass. -/
def extract_results_state (processed_results : List (String × ProcResult))
    (count_results_by_class : List (String × List (String × Nat)))
    (frequency_in_genomes : List (String × Nat))
    (cds_to_keep_1a : List (Nat × List String)) (drop_set : List PyV)
    (co : List String) : ExtractState :=
  let to_cluster_list := cluster_data processed_results
  let choice := choice_data processed_results to_cluster_list
  (processed_results.map (fun kv => kv.2)).foldl
    (extract_step processed_results count_results_by_class frequency_in_genomes
      cds_to_keep_1a drop_set to_cluster_list choice co)
    extract_init

/-- Cascading second pass of `extract_results` (`core_functions.py`, lines
1085-1090): an id that matched a dropped id promotes the id that caused the
drop into a choice. -/
def extract_second_pass (st : ExtractState) :
    List (Option Nat × List (String × List PyV)) :=
  st.matched_with_dropped.foldl (fun recs kv =>
    match alist_get st.dropped_match kv.1 with
    | none => recs
    | some droppedList =>
      droppedList.foldl (fun recs d =>
        kv.2.foldl (fun recs m =>
          if m.c = d.a ∨ m.c = d.b ∨ m.c = d.c then
            add_to_recommendations recs kv.1 "Choice" d.c m.cid
          else recs) recs) recs) st.recommendations

/-- Rank of a recommendation category key in the final sort order
`['Joined', 'Choice', 'Keep', 'Drop']`. -/
def rec_rank (kv : String × List PyV) : Nat :=
  index_of_str (before_underscore kv.1) ["Joined", "Choice", "Keep", "Drop"]

/-- Embedding of `extract_results` (`core_functions.py`, lines 855-1099):
returns `all_relationships`, `related_clusters` and the recommendations with
each group's categories stably sorted by `Joined > Choice > Keep > Drop`. -/
def extract_results (processed_results : List (String × ProcResult))
    (count_results_by_class : List (String × List (String × Nat)))
    (frequency_in_genomes : List (String × Nat))
    (cds_to_keep_1a : List (Nat × List String)) (drop_set : List PyV)
    (co : List String) :
    List (String × List (List String)) ×
      List (Option Nat × List (List String)) ×
      List (Option Nat × List (String × List PyV)) :=
  let st := extract_results_state processed_results count_results_by_class
    frequency_in_genomes cds_to_keep_1a drop_set co
  let recs := extract_second_pass st
  let all_relationships := processed_results.foldl
    (fun ar kv => alist_update ar kv.2.class_ [] (fun l => l ++ [kv.2.idsRel]))
    (co.map (fun c => (c, ([] : List (List String)))))
  (all_relationships, st.related_clusters,
    recs.map (fun kv => (kv.1, sort_by_rank rec_rank kv.2)))

/-- Frequency ratio as the specification words it: 1 if either frequency is 0
and the other is at most 10, 0.1 if either frequency is 0 and the other
exceeds 10, and otherwise the smaller of the two quotients. -/
def freq_ratio_spec (qf sf : ℚ) : ℚ :=
  if (qf = 0 ∧ sf ≤ 10) ∨ (sf = 0 ∧ qf ≤ 10) then 1
  else if (qf = 0 ∧ 10 < sf) ∨ (sf = 0 ∧ 10 < qf) then 1/10
  else min (qf / sf) (sf / qf)

/-- Score-ratio as the specification words it: the stored BSR value rounded to
4 decimal places, except that a value strictly above 1.0 is collapsed to the
nearest whole number first (so the 4-decimal rounding is the identity on it),
and 0 when no value exists for the pair. -/
def bsr_score_spec : Option ℚ → ℚ
  | none => 0
  | some v => if 1 < v then ((pyRound v : ℤ) : ℚ) else round4 v

/-- Two ordered pairs denote different unordered pairs. -/
def unordered_ne (a b : String × String) : Prop :=
  a ≠ b ∧ a ≠ (b.2, b.1)

/-- Loop invariant of the processed-pairs guard in `extract_results`: the
handled trace holds pairwise distinct unordered pairs, `processed_cases` is
exactly the set of reversals of handled pairs, and every handled pair comes
from an already visited result. -/
def GuardInv (pre : List ProcResult) (st : ExtractState) : Prop :=
  st.handled.Pairwise unordered_ne ∧
  (∀ p ∈ st.handled, [p.2, p.1] ∈ st.processed_cases) ∧
  (∀ c ∈ st.processed_cases, ∃ p ∈ st.handled, c = [p.2, p.1]) ∧
  (∀ p ∈ st.handled, ∃ r ∈ pre, r.pairIds = p)

/-- Classified pair of class `4a` whose subject frequency is strictly lower
than its query frequency. -/
def pairs_with_4a : List PairMatches :=
  [⟨"A", "B", ⟨"4a", 5, 1⟩⟩]

/-- Classified pair of class `2a` whose subject frequency is strictly lower
than its query frequency. -/
def pairs_with_2a : List PairMatches :=
  [⟨"A", "B", ⟨"2a", 5, 1⟩⟩]

/-- Classified pair of class `1b` with equal query and subject frequencies. -/
def pairs_with_1b_tie : List PairMatches :=
  [⟨"C", "D", ⟨"1b", 3, 3⟩⟩]

/-- Processed results with a single pair of class `4b` and no drop-mark. -/
def processed_4b : List (String × ProcResult) :=
  [("A|B", ⟨"4b", ["A", "B"], [], ("A", "B"), ["A", "B", "4b"]⟩)]

/-- Processed results of a run where `B` is joined with `X` by a `1a` pair, and
`A` (a member of the drop set, drop-marked against `C`) matches the joined
member `B` under class `2a` with `B` drop-marked. -/
def processed_join_drop : List (String × ProcResult) :=
  [("B|X", ⟨"1a", ["B", "X"], [], ("B", "X"), ["B", "X", "1a"]⟩),
   ("A|B", ⟨"2a", ["A", "B"], ["B"], ("A", "B"), ["A", "B*", "2a"]⟩),
   ("A|C", ⟨"2a", ["A", "C"], ["A"], ("A", "C"), ["A*", "C", "2a"]⟩)]

/-- Per-pair class counts matching `processed_join_drop`. -/
def counts_join_drop : List (String × List (String × Nat)) :=
  [("B|X", [("1a", 1)]), ("A|B", [("2a", 1)]), ("A|C", [("2a", 1)])]

/-- Genome frequencies matching `processed_join_drop`. -/
def freqs_join_drop : List (String × Nat) :=
  [("A", 10), ("B", 1), ("C", 110), ("X", 1)]

/-- The `1a` join clusters of `processed_join_drop`: `B` and `X` joined as
group 1. -/
def cds_1a_join_drop : List (Nat × List String) :=
  [(1, ["B", "X"])]

/-- Drop set of the run: `A` was drop-marked and its best class is `2a`. -/
def drop_set_join_drop : List PyV :=
  [PyV.s "A"]

/-- Processed results with two distinct `1c` pairs sharing the id `B`. -/
def processed_two_pairs : List (String × ProcResult) :=
  [("A|B", ⟨"1c", ["A", "B"], [], ("A", "B"), ["A", "B", "1c"]⟩),
   ("B|C", ⟨"1c", ["B", "C"], [], ("B", "C"), ["B", "C", "1c"]⟩)]

/-- One raw alignment fully covering both sequences. -/
def raw_full : RawAlignment :=
  ⟨1, 10, 10, 1, 10, 10⟩

/-- One inverted raw alignment (end before start on both sides). -/
def raw_inverted : RawAlignment :=
  ⟨10, 1, 10, 10, 1, 10⟩

/-- Placeholder per-pair metrics for concrete enrichment runs. -/
def metrics_zero : PairMetrics :=
  ⟨0, KmerMetric.dash, KmerMetric.dash, 0, 0, 0, 0, 0, 0⟩

/-- Raw BLAST results with one surviving and one inverted alignment. -/
def raw_results_mixed : List (String × List (String × List RawAlignment)) :=
  [("q", [("s", [raw_full, raw_inverted])])]

/-- Small k-mer similarity table with one query row. -/
def kmer_table_one : List (String × List (String × ℚ × ℚ)) :=
  [("A", [("B", (1/2, 3/4))])]

/-- Small BSR table with one value above 1.0. -/
def bsr_table_one : List (String × List (String × ℚ)) :=
  [("A", [("B", 3/2)])]

theorem pyRound_intCast (n : ℤ) : pyRound (n : ℚ) = n := by
  unfold pyRound
  rw [Int.floor_intCast]
  norm_num

theorem round4_intCast (n : ℤ) : round4 (n : ℚ) = n := by
  unfold round4
  have h : ((n : ℚ) * 10000) = ((n * 10000 : ℤ) : ℚ) := by push_cast; ring
  rw [h, pyRound_intCast]
  push_cast
  field_simp

theorem round4_zero : round4 0 = 0 := by
  have h := round4_intCast 0
  simpa using h

/-- C1: the decision tree assigns class `1a` exactly when the entry's
`global_palign_all_min` reaches the hardcoded size-ratio threshold 0.8 and its
`bsr` reaches the configured bsr threshold (`constants[7]`); the first branch
is checked first, so both directions hold. -/
theorem classify_blast_entry_1a_iff (e : ClassifyEntry) (pident_threshold bsr_threshold : ℚ) :
    classify_blast_entry e pident_threshold bsr_threshold = "1a" ↔
      4/5 ≤ e.global_palign_all_min ∧ bsr_threshold ≤ e.bsr := by
  unfold classify_blast_entry
  split_ifs <;> simp_all

/-- C6: the frequency ratio computed by the classifier equals the ratio the
specification describes: 1 when either frequency is 0 and the other is at most
10, 0.1 when either frequency is 0 and the other exceeds 10, and the smaller
frequency quotient otherwise. -/
theorem freq_ratio_val_matches_spec (e : ClassifyEntry) :
    freq_ratio_val e =
      freq_ratio_spec e.frequency_in_genomes_query_cds
        e.frequency_in_genomes_subject_cds := by
  unfold freq_ratio_val freq_ratio_spec
  set qf := e.frequency_in_genomes_query_cds
  set sf := e.frequency_in_genomes_subject_cds
  by_cases h1 : qf = 0 ∨ sf = 0
  · by_cases h2 : 10 < qf ∨ 10 < sf
    · rw [if_pos h1, if_pos h2]
      have hs1 : ¬ ((qf = 0 ∧ sf ≤ 10) ∨ (sf = 0 ∧ qf ≤ 10)) := by
        rintro (⟨ha, hb⟩ | ⟨ha, hb⟩) <;> rcases h2 with h | h <;>
          (try rw [ha] at h) <;> linarith
      have hs2 : (qf = 0 ∧ 10 < sf) ∨ (sf = 0 ∧ 10 < qf) := by
        rcases h1 with ha | ha <;> rcases h2 with h | h
        · exfalso; rw [ha] at h; linarith
        · exact Or.inl ⟨ha, h⟩
        · exact Or.inr ⟨ha, h⟩
        · exfalso; rw [ha] at h; linarith
      rw [if_neg hs1, if_pos hs2]
    · rw [if_pos h1, if_neg h2]
      push_neg at h2
      have hs1 : (qf = 0 ∧ sf ≤ 10) ∨ (sf = 0 ∧ qf ≤ 10) := by
        rcases h1 with ha | ha
        · exact Or.inl ⟨ha, h2.2⟩
        · exact Or.inr ⟨ha, h2.1⟩
      rw [if_pos hs1]
  · rw [if_neg h1]
    push_neg at h1
    have hs1 : ¬ ((qf = 0 ∧ sf ≤ 10) ∨ (sf = 0 ∧ qf ≤ 10)) := by
      rintro (⟨ha, hb⟩ | ⟨ha, hb⟩)
      · exact h1.1 ha
      · exact h1.2 ha
    have hs2 : ¬ ((qf = 0 ∧ 10 < sf) ∨ (sf = 0 ∧ 10 < qf)) := by
      rintro (⟨ha, hb⟩ | ⟨ha, hb⟩)
      · exact h1.1 ha
      · exact h1.2 ha
    rw [if_neg hs1, if_neg hs2]

/-- C7: on a pair whose query has a row in the BSR table, the enrichment
score-ratio equals the stored BSR value rounded to 4 decimal places, except
that a value strictly above 1.0 is first collapsed to the nearest whole
number; a missing pair value yields 0. -/
theorem get_bsr_value_matches_spec (bsr_values : List (String × List (String × ℚ)))
    (query subject : String) (row : List (String × ℚ))
    (h : alist_get bsr_values query = some row) :
    get_bsr_value bsr_values query subject = some (bsr_score_spec (alist_get row subject)) := by
  unfold get_bsr_value
  rw [h]
  dsimp only
  cases hrow : alist_get row subject with
  | none =>
    simp only [bsr_score_spec, Option.getD_none]
    rw [if_neg (by norm_num : ¬ (1:ℚ) < 0), round4_zero]
  | some v =>
    simp only [bsr_score_spec, Option.getD_some]
    split_ifs with hv
    · rw [round4_intCast]
    · rfl

/-- Witness for C7 at a concrete table: the stored value 1.5 is collapsed to
the even neighbour 2 before rounding. -/
theorem get_bsr_value_matches_spec_witness :
    get_bsr_value bsr_table_one "A" "B" = some (bsr_score_spec (alist_get [("B", (3:ℚ)/2)] "B")) :=
  get_bsr_value_matches_spec bsr_table_one "A" "B" [("B", (3:ℚ)/2)] rfl

/-- C9: when a non-empty k-mer similarity table is provided and the query has
a row, a pair with no entry receives similarity 0 and coverage 0; the `'-'`
sentinels are produced exactly when no table is provided at all. -/
theorem get_kmer_values_defaults (table : List (String × List (String × ℚ × ℚ)))
    (query subject : String) :
    (∀ row, alist_get table query = some row → alist_get row subject = none →
      get_kmer_values table query subject = some (KmerMetric.val 0, KmerMetric.val 0)) ∧
    (get_kmer_values table query subject = some (KmerMetric.dash, KmerMetric.dash) ↔
      table = []) := by
  constructor
  · intro row hq hs
    unfold get_kmer_values
    have hne : ¬ table.isEmpty = true := by
      intro h
      rw [List.isEmpty_iff] at h
      rw [h] at hq
      simp [alist_get] at hq
    rw [if_neg hne, hq]
    dsimp only
    rw [hs]
  · unfold get_kmer_values
    constructor
    · intro h
      by_contra hne
      have hie : ¬ table.isEmpty = true := by
        intro hh
        exact hne (List.isEmpty_iff.mp hh)
      rw [if_neg hie] at h
      cases hq : alist_get table query with
      | none => rw [hq] at h; exact Option.noConfusion h
      | some row =>
        rw [hq] at h
        dsimp only at h
        cases hs : alist_get row subject with
        | none => rw [hs] at h; simp at h
        | some sc => rw [hs] at h; simp at h
    · intro h
      subst h
      rfl

/-- Witness for C9 at a concrete non-empty table: the pair `(A, C)` has no
entry and receives `(0, 0)`, not the sentinels. -/
theorem get_kmer_values_defaults_witness :
    get_kmer_values kmer_table_one "A" "C" = some (KmerMetric.val 0, KmerMetric.val 0) :=
  (get_kmer_values_defaults kmer_table_one "A" "C").1 [("B", ((1:ℚ)/2, (3:ℚ)/4))] rfl rfl

/-- C8: after enrichment every surviving alignment entry carries the
`calculate_local_palign` of its raw record and that value is non-negative
(entries with a negative value were removed by `remove_results`), and no
subject or query container left empty survives (`clean_up_results`). -/
theorem add_items_to_results_post
    (results : List (String × List (String × List RawAlignment)))
    (met : String → String → PairMetrics) :
    ∀ qp ∈ add_items_to_results results met, qp.2 ≠ [] ∧
      ∀ sp ∈ qp.2, sp.2 ≠ [] ∧ ∀ e ∈ sp.2,
        e.local_palign_min = calculate_local_palign e.raw ∧ 0 ≤ e.local_palign_min := by
  intro qp hqp
  unfold add_items_to_results at hqp
  rw [List.mem_filter] at hqp
  obtain ⟨hmem, hne⟩ := hqp
  rw [List.mem_map] at hmem
  obtain ⟨orig, -, rfl⟩ := hmem
  refine ⟨?_, ?_⟩
  · intro hnil
    rw [hnil] at hne
    simp at hne
  · intro sp hsp
    rw [List.mem_filter] at hsp
    obtain ⟨hsp, hne2⟩ := hsp
    rw [List.mem_map] at hsp
    obtain ⟨so, -, rfl⟩ := hsp
    refine ⟨?_, ?_⟩
    · intro hnil
      rw [hnil] at hne2
      simp at hne2
    · intro e he
      rw [List.mem_filterMap] at he
      obtain ⟨r, -, hr⟩ := he
      dsimp only at hr
      by_cases hlp : 0 ≤ calculate_local_palign r
      · rw [if_pos hlp] at hr
        cases hr
        exact ⟨rfl, hlp⟩
      · rw [if_neg hlp] at hr
        exact Option.noConfusion hr

/-- Witness for C8 at a concrete run containing one covering and one inverted
alignment: the surviving entry stores a non-negative local palign. -/
theorem add_items_to_results_post_witness :
    (⟨raw_full, metrics_zero, 1⟩ : EnrichedAlignment).local_palign_min =
        calculate_local_palign (⟨raw_full, metrics_zero, 1⟩ : EnrichedAlignment).raw ∧
      0 ≤ (⟨raw_full, metrics_zero, 1⟩ : EnrichedAlignment).local_palign_min := by
  have h1 : calculate_local_palign raw_full = 1 := by
    have ha : calculate_local_palign raw_full = round4 1 := by
      unfold calculate_local_palign raw_full
      norm_num
    have hb := round4_intCast 1
    rw [ha]
    simpa using hb
  have h2 : calculate_local_palign raw_inverted = -(4:ℚ)/5 := by
    have ha : calculate_local_palign raw_inverted = round4 (-(4:ℚ)/5) := by
      unfold calculate_local_palign raw_inverted
      norm_num
    have hb : round4 (-(4:ℚ)/5) = -(4:ℚ)/5 := by
      unfold round4
      have hc : (-(4:ℚ)/5 * 10000) = ((-8000 : ℤ) : ℚ) := by norm_num
      rw [hc, pyRound_intCast]
      norm_num
    rw [ha, hb]
  have hout : add_items_to_results raw_results_mixed (fun _ _ => metrics_zero) =
      [("q", [("s", [⟨raw_full, metrics_zero, 1⟩])])] := by
    unfold add_items_to_results raw_results_mixed
    simp [h1, h2]
    norm_num
  have h := add_items_to_results_post raw_results_mixed (fun _ _ => metrics_zero)
    ("q", [("s", [⟨raw_full, metrics_zero, 1⟩])])
    (by rw [hout]; exact List.mem_singleton.mpr rfl)
  exact (h.2 ("s", [⟨raw_full, metrics_zero, 1⟩]) (by decide)).2
    ⟨raw_full, metrics_zero, 1⟩ (by decide)

theorem process_classes_step_none_drop_mark (co : List String) (st : ProcessOut)
    (p : PairMatches) :
    (process_classes_step co none st p).drop_mark =
      st.drop_mark ++ (mark_dropped p.firstEntry.class_ p.firstEntry p.query p.subject
        [p.query, p.subject, p.firstEntry.class_]).2 :=
  rfl

theorem process_classes_none_drop_mark_mono (co : List String) :
    ∀ (l : List PairMatches) (st : ProcessOut) (x : String),
      x ∈ st.drop_mark → x ∈ (l.foldl (process_classes_step co none) st).drop_mark := by
  intro l
  induction l with
  | nil => intro st x hx; simpa using hx
  | cons p ps ih =>
    intro st x hx
    simp only [List.foldl_cons]
    apply ih
    rw [process_classes_step_none_drop_mark]
    exact List.mem_append_left _ hx

theorem process_classes_none_drop_mark_mem (co : List String) :
    ∀ (l : List PairMatches) (st : ProcessOut) (p : PairMatches), p ∈ l →
      ∀ x ∈ (mark_dropped p.firstEntry.class_ p.firstEntry p.query p.subject
        [p.query, p.subject, p.firstEntry.class_]).2,
      x ∈ (l.foldl (process_classes_step co none) st).drop_mark := by
  intro l
  induction l with
  | nil =>
    intro st p hp
    simp at hp
  | cons q qs ih =>
    intro st p hp x hx
    rcases List.mem_cons.mp hp with h | h
    · subst h
      simp only [List.foldl_cons]
      apply process_classes_none_drop_mark_mono
      rw [process_classes_step_none_drop_mark]
      exact List.mem_append_right _ hx
    · simp only [List.foldl_cons]
      exact ih _ p h x hx

theorem mark_dropped_drops_subject (class_ : String) (e : ClassedEntry) (q s : String)
    (hc : class_ = "1b" ∨ class_ = "2a" ∨ class_ = "3a") (hqs : q ≠ s)
    (hf : e.frequency_in_genomes_subject_cds ≤ e.frequency_in_genomes_query_cds) :
    mark_dropped class_ e q s [q, s, class_] = ([q, s ++ "*", class_], [s]) := by
  have h45 : ¬ (class_ = "4c" ∨ class_ = "5") := by
    rcases hc with h | h | h <;> subst h <;> decide
  unfold mark_dropped
  rw [if_pos h45, if_pos hc]
  dsimp only
  rw [if_pos hf, if_neg hqs]
  rfl

theorem mark_dropped_drops_query (class_ : String) (e : ClassedEntry) (q s : String)
    (hc : class_ = "1b" ∨ class_ = "2a" ∨ class_ = "3a")
    (hf : e.frequency_in_genomes_query_cds < e.frequency_in_genomes_subject_cds) :
    mark_dropped class_ e q s [q, s, class_] = ([q ++ "*", s, class_], [q]) := by
  have h45 : ¬ (class_ = "4c" ∨ class_ = "5") := by
    rcases hc with h | h | h <;> subst h <;> decide
  unfold mark_dropped
  rw [if_pos h45, if_pos hc]
  dsimp only
  rw [if_neg (not_le.mpr hf), if_pos rfl]
  rfl

/-- Counterexample for C3: a pair of class `4a` whose subject frequency (1) is
strictly below its query frequency (5) is not drop-marked by
`process_classes`: the drop list stays empty and no identifier string gets an
asterisk, although the claim requires the lower-frequency side `B` to be
marked. -/
theorem process_classes_leaves_4a_unmarked :
    (process_classes pairs_with_4a classes_outcome none).drop_mark = [] ∧
    "B" ∉ (process_classes pairs_with_4a classes_outcome none).drop_mark ∧
    (alist_get (process_classes pairs_with_4a classes_outcome none).processed_results
        "A|B").map (fun r => r.strings) = some ["A", "B", "4a"] :=
  ⟨rfl, by decide, rfl⟩

/-- C3 (amended): only for classes `1b`, `2a`, `3a` — not `4a` — the side
with the lower genome frequency (the subject on ties) is appended to the
drop-mark list by `process_classes` and its output string receives the `*`
suffix. -/
theorem process_classes_drop_marks_lower_frequency
    (results : List PairMatches) (co : List String) (p : PairMatches)
    (hp : p ∈ results)
    (hc : p.firstEntry.class_ = "1b" ∨ p.firstEntry.class_ = "2a" ∨
      p.firstEntry.class_ = "3a")
    (hqs : p.query ≠ p.subject) :
    (p.firstEntry.frequency_in_genomes_subject_cds ≤
        p.firstEntry.frequency_in_genomes_query_cds →
      p.subject ∈ (process_classes results co none).drop_mark ∧
      mark_dropped p.firstEntry.class_ p.firstEntry p.query p.subject
          [p.query, p.subject, p.firstEntry.class_] =
        ([p.query, p.subject ++ "*", p.firstEntry.class_], [p.subject])) ∧
    (p.firstEntry.frequency_in_genomes_query_cds <
        p.firstEntry.frequency_in_genomes_subject_cds →
      p.query ∈ (process_classes results co none).drop_mark ∧
      mark_dropped p.firstEntry.class_ p.firstEntry p.query p.subject
          [p.query, p.subject, p.firstEntry.class_] =
        ([p.query ++ "*", p.subject, p.firstEntry.class_], [p.query])) := by
  constructor
  · intro hf
    have hm := mark_dropped_drops_subject p.firstEntry.class_ p.firstEntry p.query p.subject hc hqs hf
    refine ⟨?_, hm⟩
    unfold process_classes
    apply process_classes_none_drop_mark_mem co results ⟨[], [], []⟩ p hp
    rw [hm]
    exact List.mem_singleton.mpr rfl
  · intro hf
    have hm := mark_dropped_drops_query p.firstEntry.class_ p.firstEntry p.query p.subject hc hf
    refine ⟨?_, hm⟩
    unfold process_classes
    apply process_classes_none_drop_mark_mem co results ⟨[], [], []⟩ p hp
    rw [hm]
    exact List.mem_singleton.mpr rfl

/-- Witness for the amended C3: in a run with one `2a` pair of frequencies
5 and 1, the lower-frequency subject `B` lands in the drop-mark list. -/
theorem process_classes_drop_marks_lower_frequency_witness :
    "B" ∈ (process_classes pairs_with_2a classes_outcome none).drop_mark := by
  have h := process_classes_drop_marks_lower_frequency pairs_with_2a classes_outcome
    ⟨"A", "B", ⟨"2a", 5, 1⟩⟩ (List.mem_singleton.mpr rfl) (Or.inr (Or.inl rfl))
    (by decide)
  exact (h.1 (by norm_num)).1

/-- C10: for classes `1b`, `2a`, `3a`, equal query and subject frequencies
drop-mark the subject side (the source comparison is
`frequency_of_query >= frequency_of_subject`), so ties are deterministic. -/
theorem process_classes_tie_drop_marks_subject
    (results : List PairMatches) (co : List String) (p : PairMatches)
    (hp : p ∈ results)
    (hc : p.firstEntry.class_ = "1b" ∨ p.firstEntry.class_ = "2a" ∨
      p.firstEntry.class_ = "3a")
    (heq : p.firstEntry.frequency_in_genomes_query_cds =
      p.firstEntry.frequency_in_genomes_subject_cds)
    (hqs : p.query ≠ p.subject) :
    p.subject ∈ (process_classes results co none).drop_mark ∧
    mark_dropped p.firstEntry.class_ p.firstEntry p.query p.subject
        [p.query, p.subject, p.firstEntry.class_] =
      ([p.query, p.subject ++ "*", p.firstEntry.class_], [p.subject]) := by
  have hm := mark_dropped_drops_subject p.firstEntry.class_ p.firstEntry p.query p.subject hc hqs (le_of_eq heq.symm)
  refine ⟨?_, hm⟩
  unfold process_classes
  apply process_classes_none_drop_mark_mem co results ⟨[], [], []⟩ p hp
  rw [hm]
  exact List.mem_singleton.mpr rfl

/-- Witness for C10: in a run with one `1b` pair of equal frequencies 3 and 3,
the subject `D` is the drop-marked side. -/
theorem process_classes_tie_drop_marks_subject_witness :
    "D" ∈ (process_classes pairs_with_1b_tie classes_outcome none).drop_mark := by
  have h := process_classes_tie_drop_marks_subject pairs_with_1b_tie classes_outcome
    ⟨"C", "D", ⟨"1b", 3, 3⟩⟩ (List.mem_singleton.mpr rfl) (Or.inl rfl) rfl (by decide)
  exact h.1

/-- Counterexample for C4: a processed pair of class `4b` with no asterisk on
either side is nevertheless placed into the `choice` sub-clustering by
`choice_data`, although the claim admits only classes `1c`, `2b`, `3b` and
asterisked pairs. -/
theorem choice_data_includes_unmarked_4b :
    processed_4b.map (fun kv => kv.2.class_) = ["4b"] ∧
    processed_4b.all (fun kv => !(str_has_sub (kv.2.strings.getD 0 "") "*" ||
      str_has_sub (kv.2.strings.getD 1 "") "*")) = true ∧
    identify_string_in_dict_get_key "A"
      (choice_data processed_4b (cluster_data processed_4b)) = some 1 :=
  ⟨rfl, by decide, rfl⟩

/-- C4 (amended): `choice_data` selects exactly the pairs whose class is not
`1a`, `4c` or `5` — hence also `1b`, `2a`, `3a`, `4a` and `4b`, not only the
ambiguous classes — together with any pair that lies in a relationship cluster
and carries an asterisk drop-mark on either side. -/
theorem choice_selected_iff (tcl : List (Nat × List String)) (v : ProcResult) :
    choice_selected tcl v = true ↔
      (¬ (v.class_ = "1a" ∨ v.class_ = "4c" ∨ v.class_ = "5")) ∨
      (((identify_string_in_dict_get_key v.pairIds.1 tcl).isSome = true ∨
        (identify_string_in_dict_get_key v.pairIds.2 tcl).isSome = true) ∧
       (str_has_sub (v.strings.getD 0 "") "*" = true ∨
        str_has_sub (v.strings.getD 1 "") "*" = true)) := by
  unfold choice_selected
  dsimp only
  simp only [Bool.or_eq_true, Bool.and_eq_true, decide_eq_true_eq]
  tauto

theorem extract_step_handled_cases
    (pr : List (String × ProcResult)) (cnt : List (String × List (String × Nat)))
    (fr : List (String × Nat)) (c1a : List (Nat × List String)) (ds : List PyV)
    (tcl ch : List (Nat × List String)) (co : List String)
    (st : ExtractState) (r : ProcResult) :
    ((extract_step pr cnt fr c1a ds tcl ch co st r).handled = st.handled ∧
     (extract_step pr cnt fr c1a ds tcl ch co st r).processed_cases =
       st.processed_cases) ∨
    ([r.pairIds.1, r.pairIds.2] ∉ st.processed_cases ∧
     (extract_step pr cnt fr c1a ds tcl ch co st r).handled =
       st.handled ++ [(r.pairIds.1, r.pairIds.2)] ∧
     (extract_step pr cnt fr c1a ds tcl ch co st r).processed_cases =
       st.processed_cases ++ [[r.pairIds.2, r.pairIds.1]]) := by
  unfold extract_step
  split
  · exact Or.inl ⟨rfl, rfl⟩
  · dsimp only
    split
    · exact Or.inl ⟨rfl, rfl⟩
    · rename_i h
      exact Or.inr ⟨h, rfl, rfl⟩

theorem guard_inv_step
    (pr : List (String × ProcResult)) (cnt : List (String × List (String × Nat)))
    (fr : List (String × Nat)) (c1a : List (Nat × List String)) (ds : List PyV)
    (tcl ch : List (Nat × List String)) (co : List String)
    (pre : List ProcResult) (st : ExtractState) (r : ProcResult)
    (hInv : GuardInv pre st)
    (hfresh : ∀ q ∈ pre, q.pairIds ≠ r.pairIds) :
    GuardInv (pre ++ [r]) (extract_step pr cnt fr c1a ds tcl ch co st r) := by
  obtain ⟨i1, i2, i3, i4⟩ := hInv
  rcases extract_step_handled_cases pr cnt fr c1a ds tcl ch co st r with
    ⟨h1, h2⟩ | ⟨hnotin, h1, h2⟩
  · refine ⟨?_, ?_, ?_, ?_⟩
    · rw [h1]; exact i1
    · rw [h1, h2]; exact i2
    · rw [h1, h2]; exact i3
    · rw [h1]
      intro p hp
      obtain ⟨q, hq, he⟩ := i4 p hp
      exact ⟨q, List.mem_append_left _ hq, he⟩
  · refine ⟨?_, ?_, ?_, ?_⟩
    · rw [h1, List.pairwise_append]
      refine ⟨i1, List.pairwise_singleton _ _, ?_⟩
      intro a ha b hb
      rw [List.mem_singleton] at hb
      subst hb
      constructor
      · intro hab
        obtain ⟨q, hq, he⟩ := i4 a ha
        exact hfresh q hq (he.trans hab)
      · intro hab
        subst hab
        exact hnotin (i2 _ ha)
    · rw [h1, h2]
      intro p hp
      rcases List.mem_append.mp hp with h | h
      · exact List.mem_append_left _ (i2 p h)
      · rw [List.mem_singleton] at h
        subst h
        exact List.mem_append_right _ (List.mem_singleton.mpr rfl)
    · rw [h1, h2]
      intro c hc
      rcases List.mem_append.mp hc with h | h
      · obtain ⟨p, hp, he⟩ := i3 c h
        exact ⟨p, List.mem_append_left _ hp, he⟩
      · rw [List.mem_singleton] at h
        subst h
        exact ⟨(r.pairIds.1, r.pairIds.2),
          List.mem_append_right _ (List.mem_singleton.mpr rfl), rfl⟩
    · rw [h1]
      intro p hp
      rcases List.mem_append.mp hp with h | h
      · obtain ⟨q, hq, he⟩ := i4 p h
        exact ⟨q, List.mem_append_left _ hq, he⟩
      · rw [List.mem_singleton] at h
        subst h
        exact ⟨r, List.mem_append_right _ (List.mem_singleton.mpr rfl), rfl⟩

theorem guard_inv_fold
    (pr : List (String × ProcResult)) (cnt : List (String × List (String × Nat)))
    (fr : List (String × Nat)) (c1a : List (Nat × List String)) (ds : List PyV)
    (tcl ch : List (Nat × List String)) (co : List String) :
    ∀ (l : List ProcResult) (pre : List ProcResult) (st : ExtractState),
      GuardInv pre st →
      (∀ q ∈ pre, ∀ x ∈ l, q.pairIds ≠ x.pairIds) →
      l.Pairwise (fun x y => x.pairIds ≠ y.pairIds) →
      GuardInv (pre ++ l) (l.foldl (extract_step pr cnt fr c1a ds tcl ch co) st) := by
  intro l
  induction l with
  | nil =>
    intro pre st hInv _ _
    simpa using hInv
  | cons x xs ih =>
    intro pre st hInv hcross hpw
    have hpw' := List.pairwise_cons.mp hpw
    have hstep := guard_inv_step pr cnt fr c1a ds tcl ch co pre st x hInv
      (fun q hq => hcross q hq x (List.mem_cons_self _ _))
    have hrec := ih (pre ++ [x]) (extract_step pr cnt fr c1a ds tcl ch co st x) hstep
      (fun q hq y hy => by
        rcases List.mem_append.mp hq with h | h
        · exact hcross q h y (List.mem_cons_of_mem _ hy)
        · rw [List.mem_singleton] at h
          subst h
          exact hpw'.1 y hy)
      hpw'.2
    rw [List.append_assoc] at hrec
    simpa using hrec

/-- C5: when the processed results carry pairwise distinct ordered id pairs
(they are values of a dictionary keyed by `"query|subject"`), the main loop of
`extract_results` handles each unordered pair at most once: the handled trace
never contains a pair twice, in either orientation — later occurrences are
skipped by the `processed_cases` guard. -/
theorem extract_results_visits_each_unordered_pair_once
    (processed_results : List (String × ProcResult))
    (count_results_by_class : List (String × List (String × Nat)))
    (frequency_in_genomes : List (String × Nat))
    (cds_to_keep_1a : List (Nat × List String)) (drop_set : List PyV)
    (co : List String)
    (h : (processed_results.map (fun kv => kv.2)).Pairwise
      (fun x y => x.pairIds ≠ y.pairIds)) :
    (extract_results_state processed_results count_results_by_class
      frequency_in_genomes cds_to_keep_1a drop_set co).handled.Pairwise
      unordered_ne := by
  have hinit : GuardInv [] extract_init := by
    refine ⟨List.Pairwise.nil, ?_, ?_, ?_⟩ <;> simp [extract_init]
  have hfold := guard_inv_fold processed_results count_results_by_class
    frequency_in_genomes cds_to_keep_1a drop_set (cluster_data processed_results)
    (choice_data processed_results (cluster_data processed_results)) co
    (processed_results.map (fun kv => kv.2)) [] extract_init hinit (by simp) h
  exact hfold.1

/-- Witness for C5 on a concrete two-pair run: the handled trace holds two
distinct unordered pairs. -/
theorem extract_results_visits_each_unordered_pair_once_witness :
    (extract_results_state processed_two_pairs [] [] [] []
      classes_outcome).handled.Pairwise unordered_ne := by
  apply extract_results_visits_each_unordered_pair_once
  simp only [processed_two_pairs, List.map_cons, List.map_nil, List.pairwise_cons]
  refine ⟨?_, ?_, List.Pairwise.nil⟩ <;> intro y hy <;> simp_all

/-- C2 fails on the code: in the concrete run `processed_join_drop` (a `1a`
join of `B` and `X` processed first, then the `2a` pair `(A, B)` with the
joined member `B` drop-marked and `A` in the drop set), the final
recommendations of group 1 record the identifier `A` under both `Choice_1`
and `Drop` — the same-iteration Choice insertion is invisible to the
previously computed in-Choice guard, and the Joined guard compares the joined
integer key against the raw id strings stored under `Joined_1`. -/
theorem extract_results_records_choice_and_drop :
    ((extract_results processed_join_drop counts_join_drop freqs_join_drop
        cds_1a_join_drop drop_set_join_drop classes_outcome).2.2).map
      (fun kv => (kv.2.filter (fun c => decide (PyV.s "A" ∈ c.2))).map
        (fun c => c.1)) = [["Choice_1", "Drop"]] := by
  rfl
